import Mathlib

/-
Verification of the dnsredir health-check / selection core
(`healthcheck.go`, package redirect).

The Go code is shallowly embedded: pure computations become Lean
functions; mutation of a host or of the shared `Transport` becomes
explicit state passing (a function returns the updated record);
network I/O performed by the DNS client is abstracted by an explicit
outcome record passed in as an argument (the "oracle"), so that every
control path of the Go code is represented; the `uint32` failure
counter becomes a `Nat` and the wrap-around of `atomic.AddUint32` is
written `% 2 ^ 32` explicitly.
-/

namespace Dnsredir

/-- Stand-in for `*tls.Config`: the health-check core only ever stores,
copies and nil-tests the pointer, so an identifier suffices. -/
structure TLSConfig where
  id : Nat
  deriving DecidableEq, Repr

/-- Errors coming back from the dns library (`error` values). The core
only propagates and nil-tests them. -/
abbrev DNSError := String

/-- `dns.TypeNS` from the dns library. -/
def TypeNS : Nat := 2

/-- `dns.ClassINET` from the dns library. -/
def ClassINET : Nat := 1

/-- `dns.OpcodeQuery` from the dns library. -/
def OpcodeQuery : Nat := 0

/-- `dns.MinMsgSize` from the dns library. -/
def MinMsgSize : Nat := 512

/-- One entry of `dns.Msg.Question`. -/
structure Question where
  name : String
  qtype : Nat
  qclass : Nat
  deriving DecidableEq, Repr

/-- The fields of `dns.Msg` the health-check core reads or writes:
header id, the Response flag, the Opcode, the RecursionDesired flag and
the question section. A zero `dns.Msg{}` literal is the default value. -/
structure Msg where
  id : Nat := 0
  response : Bool := false
  opcode : Nat := 0
  recursionDesired : Bool := false
  question : List Question := []
  deriving DecidableEq, Repr

/-- `dns.Msg.SetQuestion` from the dns library: stores a fresh header id
(the library draws it at random, here it is the `newId` argument), sets
the RecursionDesired flag to true (the library documentedly does, which
is why callers that want it cleared must re-assign it afterwards), and
replaces the question section with the single question
`{z, t, ClassINET}`. -/
def Msg.SetQuestion (m : Msg) (z : String) (t : Nat) (newId : Nat) : Msg :=
  { m with id := newId, recursionDesired := true, question := [⟨z, t, ClassINET⟩] }

/-- `Transport`: connection-negotiation settings shared by reference
across every host of a `HealthCheck`. Sharing is modelled by passing
the one `Transport` value alongside each host operation and returning
the updated value when the operation mutates it. -/
structure Transport where
  forceTcp : Bool := false
  preferUdp : Bool := false
  expire : Nat := 0
  tlsConfig : Option TLSConfig := none
  deriving DecidableEq, Repr

/-- The fields of `dns.Client` the core reads or writes (`c.Net`,
`c.TLSConfig`). -/
structure DNSClient where
  net : String := ""
  tlsConfig : Option TLSConfig := none
  deriving DecidableEq, Repr

/-- The plain data fields of `UpstreamHost`: address, failure counter
(`uint32`, kept `< 2 ^ 32`), and the probing client handle. -/
structure UpstreamHostBase where
  addr : String
  fails : Nat := 0
  c : DNSClient := {}
  deriving DecidableEq, Repr

/-- `UpstreamHost`: the data fields plus the optional custom
down-predicate `downFunc` (`UpstreamHostDownFunc`). The predicate acts
on the host's data fields. -/
structure UpstreamHost extends UpstreamHostBase where
  downFunc : Option (UpstreamHostBase → Bool) := none

/-- `UpstreamHost.SetTLSConfig`: switches the host's client to
"tcp-tls", installs the config on the client, and writes the config
into the shared `Transport` (visible to every host sharing it). -/
def UpstreamHost.SetTLSConfig (uh : UpstreamHost) (t : Transport) (config : TLSConfig) :
    UpstreamHost × Transport :=
  ({ uh with c := { uh.c with net := "tcp-tls", tlsConfig := some config } },
   { t with tlsConfig := some config })

/-- The dial request `UpstreamHost.Dial` issues: the resolved protocol,
the target address, the TLS config handed to `dns.DialTimeoutWithTLS`
(only on the "tcp-tls" branch), and the timeout in seconds. -/
structure DialCall where
  proto : String
  addr : String
  tls : Option TLSConfig
  timeoutSeconds : Nat
  deriving DecidableEq, Repr

/-- `UpstreamHost.Dial`: the `switch` overrides the caller-supplied
protocol — TLS configured wins, then `forceTcp`, then `preferUdp`,
else the argument stands. Timeout is `1 * time.Second`. The "tcp-tls"
branch calls `dns.DialTimeoutWithTLS` with the shared TLS config; any
other protocol calls `dns.DialTimeout`. -/
def UpstreamHost.Dial (uh : UpstreamHost) (t : Transport) (proto : String) : DialCall :=
  let proto :=
    if t.tlsConfig.isSome then "tcp-tls"
    else if t.forceTcp then "tcp"
    else if t.preferUdp then "udp"
    else proto
  { proto := proto
    addr := uh.addr
    tls := if proto == "tcp-tls" then t.tlsConfig else none
    timeoutSeconds := 1 }

/-- `UpstreamHost.Down`: with no `downFunc`, the host is down iff the
atomically loaded failure counter is positive; with a `downFunc`, its
verdict on the host is returned unchanged. -/
def UpstreamHost.Down (uh : UpstreamHost) : Bool :=
  match uh.downFunc with
  | none => decide (uh.fails > 0)
  | some f => f uh.toUpstreamHostBase

/-- A policy value's `Select(pool) *UpstreamHost` capability, modelled
as a function from the pool to an optional host. -/
abbrev Policy := List UpstreamHost → Option UpstreamHost

/-- Modelled from the spec: the `Random` policy lives in the
repository's policy file, which is not among the given sources. Per the
spec it "filters to currently-not-Down hosts, returns a uniformly
random pick among them, or the no-candidate sentinel if none". The
random draw is modelled by the `seed` argument selecting the index. -/
def Random.Select (seed : Nat) (pool : List UpstreamHost) : Option UpstreamHost :=
  let up := pool.filter (fun h => !h.Down)
  if up.isEmpty then none else up[seed % up.length]?

/-- `HealthCheck`: pool, optional primary policy, optional spray
policy, the (declared but unenforced) `maxFails`, the probing interval,
and the shared `Transport`. -/
structure HealthCheck where
  hosts : List UpstreamHost
  policy : Option Policy := none
  spray : Option Policy := none
  maxFails : Nat := 0
  checkInterval : Nat := 0
  transport : Transport := {}

/-- `HealthCheck.Select`, translated branch for branch. The `seed`
argument feeds the default `Random` policy's random draw on the
nil-policy branch. -/
def HealthCheck.Select (hc : HealthCheck) (seed : Nat) : Option UpstreamHost :=
  let pool := hc.hosts
  match pool with
  | [h] =>
    if h.Down && hc.spray.isNone then none
    else some h
  | _ =>
    let allDown := pool.all (fun host => host.Down)
    if allDown then
      match hc.spray with
      | none => none
      | some spray => spray pool
    else
      match hc.policy with
      | none =>
        match Random.Select seed pool with
        | some h => some h
        | none =>
          match hc.spray with
          | none => none
          | some spray => spray pool
      | some policy =>
        match policy pool with
        | some h => some h
        | none =>
          match hc.spray with
          | none => none
          | some spray => spray pool

/-- The outcome of the probing client's `c.Exchange(ping, uh.addr)`
call inside `UpstreamHost.send`: the (possibly nil) message that came
back, the round-trip time, and the (possibly nil) error. Network
behaviour is an input to the embedding. -/
structure ProbeOutcome where
  msg : Option Msg := none
  rtt : Nat := 0
  err : Option DNSError := none

/-- The liveness probe built by `UpstreamHost.send`:
`ping := &dns.Msg{}` followed by `ping.SetQuestion(".", dns.TypeNS)`
(the library draws the header id, here `newId`). -/
def pingMsg (newId : Nat) : Msg :=
  Msg.SetQuestion {} "." TypeNS newId

/-- `UpstreamHost.send`: builds the ping, exchanges it, and then — when
an error came back together with a non-nil message that is itself
flagged as a response or carries the plain-query opcode — clears the
error ("something sane came back"). Returns the message actually sent,
the error after classification, and the round-trip time. -/
def UpstreamHost.send (_uh : UpstreamHost) (newId : Nat) (o : ProbeOutcome) :
    Msg × Option DNSError × Nat :=
  let ping := pingMsg newId
  match o.err, o.msg with
  | some e, some m =>
    (ping, if m.response || m.opcode == OpcodeQuery then none else some e, o.rtt)
  | e, _ => (ping, e, o.rtt)

/-- `UpstreamHost.Check`: on an error surviving `send`'s
classification, `atomic.AddUint32(&uh.fails, 1)` (wrapping `uint32`
increment) and the error is returned; otherwise
`atomic.StoreUint32(&uh.fails, 0)` and nil is returned. -/
def UpstreamHost.Check (uh : UpstreamHost) (newId : Nat) (o : ProbeOutcome) :
    UpstreamHost × Option DNSError :=
  match (uh.send newId o).2.1 with
  | some e => ({ uh with fails := (uh.fails + 1) % 2 ^ 32 }, some e)
  | none => ({ uh with fails := 0 }, none)

/-- The fields of `request.Request` that `UpstreamHost.Exchange`
consumes: the protocol implied by the request, the advertised message
size, and the query itself. -/
structure RequestState where
  proto : String
  size : Nat
  req : Msg

/-- The network behaviour driving one `UpstreamHost.Exchange` run: did
the dial fail, did `WriteMsg` fail, and what did `ReadMsg` produce. -/
structure NetOracle where
  dialErr : Option DNSError := none
  writeErr : Option DNSError := none
  readRes : Except DNSError Msg := Except.ok {}

/-- The connection as `UpstreamHost.Exchange` leaves it: the resolved
protocol, the UDP buffer size after the `MinMsgSize` floor, and whether
it was closed (the deferred `Close` runs on every exit path after a
successful dial). -/
structure Conn where
  proto : String
  udpSize : Nat
  closed : Bool
  deriving DecidableEq, Repr

/-- `UpstreamHost.Exchange`: dial with the request's protocol (resolved
through the shared `Transport` as in `Dial`); on dial error return it
with no connection. Otherwise set `conn.UDPSize` to
`uint16(state.Size())` floored at `dns.MinMsgSize`, write the query
(returning a write error if any), then read the response; the deferred
`Close` marks the connection closed on every one of those exit paths.
The host itself is returned unchanged on every path — this function
never touches `fails`. -/
def UpstreamHost.Exchange (uh : UpstreamHost) (t : Transport) (st : RequestState)
    (net : NetOracle) : UpstreamHost × Option Conn × Except DNSError Msg :=
  match net.dialErr with
  | some e => (uh, none, Except.error e)
  | none =>
    let sz := st.size % 2 ^ 16
    let sz := if sz < MinMsgSize then MinMsgSize else sz
    let conn : Conn := { proto := (uh.Dial t st.proto).proto, udpSize := sz, closed := true }
    match net.writeErr with
    | some e => (uh, some conn, Except.error e)
    | none => (uh, some conn, net.readRes)

/-- What a Go channel of the stop-signal kind can be: nil (the zero
value of the field, before `Start` ran), open, or closed. -/
inductive ChanState where
  | nil
  | opened
  | closed
  deriving DecidableEq, Repr

/-- Runtime faults Go raises on channel misuse. -/
inductive GoPanic where
  | closeOfNilChannel
  | closeOfClosedChannel
  deriving DecidableEq, Repr

/-- The lifecycle-relevant state of a `HealthCheck`: the stop channel
and the `sync.WaitGroup` counter (number of workers added and not yet
done). A zero-value `HealthCheck` has a nil channel and counter 0. -/
structure HCLifecycle where
  stopChan : ChanState := ChanState.nil
  wgCount : Nat := 0
  deriving DecidableEq, Repr

/-- `HealthCheck.Start`: unconditionally allocates the stop channel;
only when `checkInterval != 0` does it `wg.Add(1)` and spawn the
background worker goroutine. -/
def HealthCheck.Start (s : HCLifecycle) (checkInterval : Nat) : HCLifecycle :=
  { stopChan := ChanState.opened
    wgCount := if checkInterval != 0 then s.wgCount + 1 else s.wgCount }

/-- `HealthCheck.Stop`: `close(hc.stopChan)` — which panics on a nil or
already-closed channel — then `hc.wg.Wait()`. On success the resulting
state is returned; `wg.Wait` returns immediately exactly when the
counter is 0. -/
def HealthCheck.Stop (s : HCLifecycle) : Except GoPanic HCLifecycle :=
  match s.stopChan with
  | ChanState.nil => Except.error GoPanic.closeOfNilChannel
  | ChanState.closed => Except.error GoPanic.closeOfClosedChannel
  | ChanState.opened => Except.ok { s with stopChan := ChanState.closed }

/-- `sync.WaitGroup.Wait` completes immediately iff the counter is 0
(no worker was ever added, or every added worker already called
`Done`). -/
def wgWaitImmediate (s : HCLifecycle) : Bool :=
  s.wgCount == 0

/-- The multi-host selection cascade as the specification words it: if
every host is Down, spray's selection when spray is configured and the
no-candidate sentinel otherwise; if not all hosts are Down, the pick of
the configured primary policy (default Random when nil) if that pick is
non-nil, else spray's selection when configured, else the sentinel. -/
def selectSpecMulti (hc : HealthCheck) (seed : Nat) : Option UpstreamHost :=
  if hc.hosts.all (fun host => host.Down) then
    match hc.spray with
    | some spray => spray hc.hosts
    | none => none
  else
    let pick :=
      match hc.policy with
      | some policy => policy hc.hosts
      | none => Random.Select seed hc.hosts
    match pick with
    | some h => some h
    | none =>
      match hc.spray with
      | some spray => spray hc.hosts
      | none => none

/-- The specification's criterion for one probe counting as a failure:
the exchange produced an error that is not accompanied by a message
that is flagged as a response or carries the plain-query opcode. -/
def probeFailed (o : ProbeOutcome) : Bool :=
  match o.err, o.msg with
  | some _, some m => !(m.response || m.opcode == OpcodeQuery)
  | some _, none => true
  | none, _ => false

/-- A healthy host (fails 0, default down-predicate). -/
def hostUp : UpstreamHost := { addr := "10.0.0.1:53" }

/-- A host the default down-predicate classifies as Down. -/
def hostDown1 : UpstreamHost := { addr := "10.0.0.2:53", fails := 1 }

/-- A second Down host. -/
def hostDown2 : UpstreamHost := { addr := "10.0.0.3:53", fails := 3 }

/-- A policy value that picks the first pool entry. -/
def pickFirst : Policy := fun pool => pool[0]?

/-- A single-host pool whose host is Down, with a spray policy
configured. -/
def hcSingleDownSpray : HealthCheck :=
  { hosts := [hostDown1], spray := some pickFirst }

/-- A two-host pool (one Down, one up) with neither a primary policy
nor a spray policy configured. -/
def hcMulti : HealthCheck :=
  { hosts := [hostDown1, hostUp] }

/-- A host whose `uint32` failure counter sits at the maximum value. -/
def uhCex : UpstreamHost := { addr := "cex:53", fails := 2 ^ 32 - 1 }

/-- A probe outcome carrying an I/O error and no message. -/
def oCex : ProbeOutcome := { err := some "i/o timeout" }

/-- A transport with TLS unset and forced TCP. -/
def tForceTcp : Transport := { forceTcp := true }

/-- C1: with a pool of exactly one host, `Select` returns nil precisely
when that host is Down and no spray policy is configured; in every
other single-host case it returns the host itself. The right-hand side
depends on the spray policy only through `isNone`, never through the
spray function's value, so spray's `Select` is never consulted in the
single-host case. -/
theorem select_single_host (hc : HealthCheck) (h : UpstreamHost) (seed : Nat)
    (hh : hc.hosts = [h]) :
    hc.Select seed = if h.Down && hc.spray.isNone then none else some h := by
  simp only [HealthCheck.Select, hh]

/-- Witness for C1 at the quirk the spec calls out: single Down host
with spray configured — `Select` returns the host, not spray's pick. -/
theorem select_single_host_witness :
    hcSingleDownSpray.hosts = [hostDown1] ∧
      hcSingleDownSpray.Select 0 = some hostDown1 := by
  refine ⟨rfl, ?_⟩
  have hmain := select_single_host hcSingleDownSpray hostDown1 0 rfl
  simpa [hcSingleDownSpray] using hmain

/-- C2: with at least two hosts, `Select` agrees with the
specification's cascade `selectSpecMulti`: all-Down pools go to spray
(or nil), otherwise the primary policy's pick (default Random when the
primary policy is nil) wins when non-nil, with spray (or nil) as
fallback. -/
theorem select_multi_host (hc : HealthCheck) (seed : Nat)
    (hlen : 2 ≤ hc.hosts.length) :
    hc.Select seed = selectSpecMulti hc seed := by
  obtain ⟨hosts, policy, spray, mf, ci, tr⟩ := hc
  match hosts with
  | [] => simp at hlen
  | [h] => simp at hlen
  | a :: b :: rest =>
    simp only [HealthCheck.Select, selectSpecMulti]
    cases hall : (a :: b :: rest).all (fun host => host.Down) with
    | true => cases spray <;> simp [hall]
    | false =>
      cases policy with
      | none =>
        cases hr : Random.Select seed (a :: b :: rest) <;>
          cases spray <;> simp [hall, hr]
      | some p =>
        cases hp : p (a :: b :: rest) <;>
          cases spray <;> simp [hall, hp]

/-- Witness for C2 on a concrete two-host pool. -/
theorem select_multi_host_witness :
    2 ≤ hcMulti.hosts.length ∧ hcMulti.Select 0 = selectSpecMulti hcMulti 0 :=
  ⟨by decide, select_multi_host hcMulti 0 (by decide)⟩

/-- C3 (amended): one `Check` invocation either increments `fails` by
exactly 1 modulo `2 ^ 32` — the `uint32` counter of
`atomic.AddUint32` wraps — when the probe fails per `probeFailed`
(an error not excused by a plausibly-valid message), or stores exactly
0 into `fails` in every other case, including an error excused by a
message flagged as a response or carrying the plain-query opcode. -/
theorem check_fails_update (uh : UpstreamHost) (newId : Nat) (o : ProbeOutcome) :
    (probeFailed o = true →
      (uh.Check newId o).1.fails = (uh.fails + 1) % 2 ^ 32) ∧
    (probeFailed o = false → (uh.Check newId o).1.fails = 0) := by
  obtain ⟨msg, rtt, err⟩ := o
  match err, msg with
  | none, none => simp [UpstreamHost.Check, UpstreamHost.send, probeFailed]
  | none, some m => simp [UpstreamHost.Check, UpstreamHost.send, probeFailed]
  | some e, none => simp [UpstreamHost.Check, UpstreamHost.send, probeFailed]
  | some e, some m =>
    cases hm : (m.response || m.opcode == OpcodeQuery) <;>
      simp [UpstreamHost.Check, UpstreamHost.send, probeFailed, hm]

/-- Counterexample to C3 as stated: with the counter at the `uint32`
maximum, a failed probe (the error is propagated by `Check`) does not
increment `fails` by exactly 1 — the counter wraps to 0. -/
theorem check_fails_counterexample :
    probeFailed oCex = true ∧
      (uhCex.Check 0 oCex).2 = some "i/o timeout" ∧
      (uhCex.Check 0 oCex).1.fails ≠ uhCex.fails + 1 := by
  refine ⟨rfl, rfl, ?_⟩
  decide

/-- Witness for C3 (amended), on both branches' conditions at a
concrete failed probe against a healthy host. -/
theorem check_fails_update_witness :
    probeFailed oCex = true ∧
      (hostUp.Check 0 oCex).1.fails = (hostUp.fails + 1) % 2 ^ 32 :=
  ⟨by decide, (check_fails_update hostUp 0 oCex).1 (by decide)⟩

/-- C4: `Down` with no custom predicate is true exactly when
`fails > 0` — no `maxFails` threshold enters the default criterion —
and with a custom predicate it returns exactly that predicate's verdict
on the host. -/
theorem down_default_and_custom (uh : UpstreamHost) :
    (uh.downFunc = none → (uh.Down = true ↔ uh.fails > 0)) ∧
    (∀ f, uh.downFunc = some f → uh.Down = f uh.toUpstreamHostBase) := by
  constructor
  · intro h
    simp [UpstreamHost.Down, h]
  · intro f h
    simp [UpstreamHost.Down, h]

/-- Witness for C4: a host with one recorded failure and the default
predicate is Down. -/
theorem down_default_and_custom_witness :
    hostDown1.fails = 1 ∧ (hostDown1.Down = true ↔ hostDown1.fails > 0) :=
  ⟨rfl, (down_default_and_custom hostDown1).1 rfl⟩

/-- C5, evaluated at the failing input (the probe itself, header id 0):
the liveness probe `send` hands to the client does carry the single
question name "." type NS class INET, but its recursion-desired flag is
SET, not cleared — `SetQuestion` sets RecursionDesired true and `send`
never re-clears it, contradicting the code's own "+norec" comment. -/
theorem probe_message_rd_set :
    (pingMsg 0).question = [⟨".", TypeNS, ClassINET⟩] ∧
    (pingMsg 0).recursionDesired = true ∧
    (hostUp.send 0 {}).1 = pingMsg 0 :=
  ⟨rfl, rfl, rfl⟩

/-- C6: `SetTLSConfig` on host A sets A's client net to "tcp-tls",
installs the config on A's client and on the shared `Transport`, and
any host B dialling through that updated shared `Transport` afterwards
resolves its protocol to "tcp-tls" whatever protocol the caller
supplies. -/
theorem set_tls_config_shared (a b : UpstreamHost) (t : Transport)
    (cfg : TLSConfig) (proto : String) :
    (a.SetTLSConfig t cfg).1.c.net = "tcp-tls" ∧
    (a.SetTLSConfig t cfg).1.c.tlsConfig = some cfg ∧
    (a.SetTLSConfig t cfg).2.tlsConfig = some cfg ∧
    (b.Dial (a.SetTLSConfig t cfg).2 proto).proto = "tcp-tls" := by
  refine ⟨rfl, rfl, rfl, ?_⟩
  simp [UpstreamHost.Dial, UpstreamHost.SetTLSConfig]

/-- C7: `Dial` resolves the protocol with strict precedence — TLS
configured beats forced TCP beats preferred UDP beats the
caller-supplied default — and the connection timeout is fixed at 1
second. -/
theorem dial_precedence (uh : UpstreamHost) (t : Transport) (proto : String) :
    (t.tlsConfig.isSome = true → (uh.Dial t proto).proto = "tcp-tls") ∧
    (t.tlsConfig = none → t.forceTcp = true → (uh.Dial t proto).proto = "tcp") ∧
    (t.tlsConfig = none → t.forceTcp = false → t.preferUdp = true →
      (uh.Dial t proto).proto = "udp") ∧
    (t.tlsConfig = none → t.forceTcp = false → t.preferUdp = false →
      (uh.Dial t proto).proto = proto) ∧
    (uh.Dial t proto).timeoutSeconds = 1 := by
  refine ⟨?_, ?_, ?_, ?_, rfl⟩
  · intro h1
    simp [UpstreamHost.Dial, h1]
  · intro h1 h2
    simp [UpstreamHost.Dial, h1, h2]
  · intro h1 h2 h3
    simp [UpstreamHost.Dial, h1, h2, h3]
  · intro h1 h2 h3
    simp [UpstreamHost.Dial, h1, h2, h3]

/-- Witness for C7 on the forced-TCP transport: TLS unset, forceTcp
set, so a "udp" request dials "tcp". -/
theorem dial_precedence_witness :
    tForceTcp.tlsConfig = none ∧ tForceTcp.forceTcp = true ∧
      (hostUp.Dial tForceTcp "udp").proto = "tcp" :=
  ⟨rfl, rfl, (dial_precedence hostUp tForceTcp "udp").2.1 rfl rfl⟩

/-- C8: whatever the request and the network outcome — dial error,
write error, read error or success — `Exchange` returns the host with
its `fails` counter (indeed its whole state) unchanged; in the
embedding only `Check` ever writes `fails`. -/
theorem exchange_preserves_fails (uh : UpstreamHost) (t : Transport)
    (st : RequestState) (net : NetOracle) :
    (uh.Exchange t st net).1.fails = uh.fails ∧ (uh.Exchange t st net).1 = uh := by
  obtain ⟨d, w, r⟩ := net
  match d, w with
  | some e, _ => exact ⟨rfl, rfl⟩
  | none, some e => exact ⟨rfl, rfl⟩
  | none, none => exact ⟨rfl, rfl⟩

/-- C9: starting from the zero-value lifecycle state with
`checkInterval == 0`, `Start` allocates the stop channel but adds no
worker, and one `Stop` call succeeds (no panic) and its wait completes
immediately because the worker-group counter is 0. -/
theorem start_zero_interval_stop_safe :
    (HealthCheck.Start {} 0).stopChan = ChanState.opened ∧
    (HealthCheck.Start {} 0).wgCount = 0 ∧
    HealthCheck.Stop (HealthCheck.Start {} 0) =
      Except.ok { stopChan := ChanState.closed, wgCount := 0 } ∧
    wgWaitImmediate { stopChan := ChanState.closed, wgCount := 0 } = true :=
  ⟨rfl, rfl, rfl, rfl⟩

/-- C10: `Stop` on a `HealthCheck` whose `Start` never ran closes the
still-nil stop channel and panics; only `Start` allocates the channel
(the zero-value state carries `ChanState.nil`). -/
theorem stop_before_start_panics :
    HealthCheck.Stop {} = Except.error GoPanic.closeOfNilChannel ∧
    ({} : HCLifecycle).stopChan = ChanState.nil :=
  ⟨rfl, rfl⟩

end Dnsredir
